import Mathlib

/-!
Shallow embedding of the filmic RGB tone-mapping module
(`src/iop/filmicrgb.c`) over exact rationals.

Float arithmetic is modelled by exact arithmetic on `ℚ`; the transcendental
library routines (`log2f`, `exp2f`, `expf`, `powf`, `sqrtf`) and the
profile-dependent luminance (`dt_ioppr_get_rgb_matrix_luminance` /
`dt_camera_rgb_luminance`, which live outside this file's source) are taken
as explicit function parameters, so every theorem quantifies over their
behaviour and concrete instances can be supplied where a fact about a
specific value is needed.

Image buffers are modelled as total maps `ℕ → ℚ` over flat element indices,
with the source's interleaved 4-channel layout: element `k` belongs to pixel
`k / 4` and channel `k % 4`.
-/

namespace FilmicRGB

/-- `clamp_simd` from filmicrgb.c: clamp to `[0, 1]`. -/
def clamp_simd (x : ℚ) : ℚ := min (max x 0) 1

/-- The glib `CLAMP(x, low, high)` macro: `x > high ? high : (x < low ? low : x)`. -/
def CLAMP (x lo hi : ℚ) : ℚ := if hi < x then hi else if x < lo then lo else x

/-- The noise floor `1.52587890625e-05f` used throughout filmicrgb.c;
it is exactly `2^(-16)`. -/
def noiseFloor : ℚ := 1.52587890625e-5

/-- `log_tonemapping_v1` from filmicrgb.c, with `log2f` passed as the
parameter `log2q`:
`fmaxf(fminf((log2f(x/grey) - black) / dynamic_range, 1.0f), 1.52587890625e-05f)`. -/
def log_tonemapping_v1 (log2q : ℚ → ℚ) (x grey black dynamic_range : ℚ) : ℚ :=
  max (min ((log2q (x / grey) - black) / dynamic_range) 1) noiseFloor

/-- `log_tonemapping_v2` from filmicrgb.c, with `log2f` passed as the
parameter `log2q`: `clamp_simd((log2f(x/grey) - black) / dynamic_range)`. -/
def log_tonemapping_v2 (log2q : ℚ → ℚ) (x grey black dynamic_range : ℚ) : ℚ :=
  clamp_simd ((log2q (x / grey) - black) / dynamic_range)

/-- `fmaxabsf` from filmicrgb.c: returns the argument of larger magnitude
(`b` on ties). -/
def fmaxabs (a b : ℚ) : ℚ := if |b| < |a| then a else b

/-- `fminabsf` from filmicrgb.c: returns the argument of smaller magnitude
(`b` on ties). -/
def fminabs (a b : ℚ) : ℚ := if |a| < |b| then a else b

/-- `sqf` from filmicrgb.c. -/
def sqf (x : ℚ) : ℚ := x * x

/-- `pixel_rgb_norm_power` from filmicrgb.c:
`(|R|³+|G|³+|B|³) / max(|R|²+|G|²+|B|², 1e-12)`. -/
def pixel_rgb_norm_power (r g b : ℚ) : ℚ :=
  (|r| ^ 3 + |g| ^ 3 + |b| ^ 3) / max (|r| ^ 2 + |g| ^ 2 + |b| ^ 2) 1e-12

/-- The chroma-preservation method enum `dt_iop_filmicrgb_methods_type_t`. -/
inductive NormMethod
  | nonePreserved
  | maxRGB
  | luminance
  | powerNorm
deriving DecidableEq

/-- `get_pixel_norm` from filmicrgb.c; the profile-weighted (or camera RGB)
luminance is passed as `lumq`. -/
def get_pixel_norm (lumq : ℚ → ℚ → ℚ → ℚ) (variant : NormMethod) (r g b : ℚ) : ℚ :=
  match variant with
  | .maxRGB => max (max r g) b
  | .luminance => lumq r g b
  | .powerNorm => pixel_rgb_norm_power r g b
  | _ => lumq r g b

/-- `filmic_desaturate_v1` from filmicrgb.c, with `expf` passed as `expq`. -/
def filmic_desaturate_v1 (expq : ℚ → ℚ) (x sigma_toe sigma_shoulder saturation : ℚ) : ℚ :=
  let radius_toe := x
  let radius_shoulder := 1 - x
  let key_toe := expq (-(1/2) * radius_toe * radius_toe / sigma_toe)
  let key_shoulder := expq (-(1/2) * radius_shoulder * radius_shoulder / sigma_shoulder)
  1 - clamp_simd ((key_toe + key_shoulder) / saturation)

/-- `filmic_desaturate_v2` from filmicrgb.c, with `expf` passed as `expq`
and `sqrtf` as `sqrtq`. -/
def filmic_desaturate_v2 (expq sqrtq : ℚ → ℚ) (x sigma_toe sigma_shoulder saturation : ℚ) : ℚ :=
  let radius_toe := x
  let radius_shoulder := 1 - x
  let sat2 := (1/2) / sqrtq saturation
  let key_toe := expq (-radius_toe * radius_toe / sigma_toe * sat2)
  let key_shoulder := expq (-radius_shoulder * radius_shoulder / sigma_shoulder * sat2)
  saturation - (key_toe + key_shoulder) * saturation

/-- `linear_saturation` from filmicrgb.c. -/
def linear_saturation (x luminance saturation : ℚ) : ℚ :=
  luminance + saturation * (x - luminance)

/-- The per-segment spline coefficients and latitude boundaries of
`dt_iop_filmic_rgb_spline_t`. Index 0 is the toe, 1 the shoulder and
2 the central (latitude) segment, as in the source's `M1..M5[4]` arrays;
`x`/`y` are the five control nodes. -/
structure Spline where
  M1 : Fin 3 → ℚ
  M2 : Fin 3 → ℚ
  M3 : Fin 3 → ℚ
  M4 : Fin 3 → ℚ
  M5 : Fin 3 → ℚ
  x : Fin 5 → ℚ
  y : Fin 5 → ℚ
  latitude_min : ℚ
  latitude_max : ℚ

/-- `filmic_spline` from filmicrgb.c: select the segment by comparing `x`
with the latitude bounds, then evaluate its polynomial in Horner form. -/
def filmic_spline (s : Spline) (x : ℚ) : ℚ :=
  if x < s.latitude_min then
    s.M1 0 + x * (s.M2 0 + x * (s.M3 0 + x * (s.M4 0 + x * s.M5 0)))
  else if s.latitude_max < x then
    s.M1 1 + x * (s.M2 1 + x * (s.M3 1 + x * (s.M4 1 + x * s.M5 1)))
  else
    s.M1 2 + x * (s.M2 2 + x * (s.M3 2 + x * (s.M4 2 + x * s.M5 2)))

/-- An RGB triple, the three color channels of one pixel. -/
structure Pixel where
  r : ℚ
  g : ℚ
  b : ℚ

/-- The per-pixel sigmoid argument of `mask_clipped_pixels` in filmicrgb.c:
`-pix_max * normalize + feathering` where
`pix_max = sqrtf(sqf(R) + sqf(G) + sqf(B))`; `sqrtf` is passed as `sqrtq`. -/
def mask_argument (sqrtq : ℚ → ℚ) (normalize feathering : ℚ) (p : Pixel) : ℚ :=
  -(sqrtq (sqf p.r + sqf p.g + sqf p.b)) * normalize + feathering

/-- The per-pixel mask weight of `mask_clipped_pixels` in filmicrgb.c:
`1.0f / (1.0f + exp2f(argument))`; `exp2f` is passed as `exp2q`. -/
def mask_weight (sqrtq exp2q : ℚ → ℚ) (normalize feathering : ℚ) (p : Pixel) : ℚ :=
  1 / (1 + exp2q (mask_argument sqrtq normalize feathering p))

/-- `mask_clipped_pixels` from filmicrgb.c over a list of pixels: the mask
buffer of per-pixel weights, the count of pixels with `argument < 4`
(`clipped += (4.f > argument)`), and the returned decision `clipped > 9`. -/
def mask_clipped_pixels (sqrtq exp2q : ℚ → ℚ) (normalize feathering : ℚ)
    (pixels : List Pixel) : List ℚ × ℕ × Bool :=
  let mask := pixels.map (mask_weight sqrtq exp2q normalize feathering)
  let clipped := pixels.countP (fun p => decide (mask_argument sqrtq normalize feathering p < 4))
  (mask, clipped, decide (9 < clipped))

/-- The norm floor applied before taking ratios in `compute_ratios`,
`filmic_chroma_v1` and `filmic_chroma_v2`:
`norm = (norm < 1.52587890625e-05f) ? 1.52587890625e-05f : norm`. -/
def floor_norm (n : ℚ) : ℚ := if n < noiseFloor then noiseFloor else n

/-- The per-pixel body of `compute_ratios` from filmicrgb.c: store the floored
pixel norm and divide each channel by it. Returns (stored norm, ratio pixel). -/
def compute_ratios (lumq : ℚ → ℚ → ℚ → ℚ) (variant : NormMethod) (p : Pixel) :
    ℚ × Pixel :=
  let norm := floor_norm (get_pixel_norm lumq variant p.r p.g p.b)
  (norm, ⟨p.r / norm, p.g / norm, p.b / norm⟩)

/-- The per-pixel body of `restore_ratios` from filmicrgb.c: multiply each
channel by the stored norm. -/
def restore_ratios (norm : ℚ) (p : Pixel) : Pixel :=
  ⟨p.r * norm, p.g * norm, p.b * norm⟩

/-- A flat image buffer: element `k` is pixel `k / 4`, channel `k % 4`. -/
def Buf : Type := ℕ → ℚ

/-- `init_reconstruct` from filmicrgb.c:
`reconstructed[k] = in[k] * (1.f - mask[k/ch])` for every element `k`,
with `ch = 4`. -/
def init_reconstruct (inp mask : Buf) : Buf :=
  fun k => inp k * (1 - mask (k / 4))

/-- The body of `wavelets_reconstruct_RGB` from filmicrgb.c as a buffer
transformation: for each pixel the three color channels accumulate
`alpha * (delta * (grey_HF + color_details)
          + (grey_residual + color_residual) / scales)`
where `grey_residual` combines the three low-frequency channels with `fminf`;
the fourth channel is untouched. -/
def wavelets_reconstruct_RGB (HF LF texture mask reconstructed : Buf)
    (gamma gamma_comp beta beta_comp delta : ℚ) (scales : ℕ) : Buf :=
  fun k =>
    if k % 4 < 3 then
      let p := 4 * (k / 4)
      let alpha := mask (k / 4)
      let grey_texture := gamma * texture (k / 4)
      let grey_details := gamma_comp * fmaxabs (fmaxabs (HF p) (HF (p + 1))) (HF (p + 2))
      let grey_HF := beta_comp * (grey_details + grey_texture)
      let grey_residual := beta_comp * min (min (LF p) (LF (p + 1))) (LF (p + 2))
      let color_residual := LF k * beta
      let color_details := HF k * beta * gamma_comp
      reconstructed k
        + alpha * (delta * (grey_HF + color_details)
                   + (grey_residual + color_residual) / (scales : ℚ))
    else reconstructed k

/-- The body of `wavelets_reconstruct_ratios` from filmicrgb.c as a buffer
transformation: identical to `wavelets_reconstruct_RGB` except that
`grey_residual` combines the three low-frequency channels with `fmaxf`. -/
def wavelets_reconstruct_ratios (HF LF texture mask reconstructed : Buf)
    (gamma gamma_comp beta beta_comp delta : ℚ) (scales : ℕ) : Buf :=
  fun k =>
    if k % 4 < 3 then
      let p := 4 * (k / 4)
      let alpha := mask (k / 4)
      let grey_texture := gamma * texture (k / 4)
      let grey_details := gamma_comp * fmaxabs (fmaxabs (HF p) (HF (p + 1))) (HF (p + 2))
      let grey_HF := beta_comp * (grey_details + grey_texture)
      let grey_residual := beta_comp * max (max (LF p) (LF (p + 1))) (LF (p + 2))
      let color_residual := LF k * beta
      let color_details := HF k * beta * gamma_comp
      reconstructed k
        + alpha * (delta * (grey_HF + color_details)
                   + (grey_residual + color_residual) / (scales : ℚ))
    else reconstructed k

/-- The per-pixel high-frequency/texture computation of
`wavelets_detail_level_RGB` from filmicrgb.c: `HF = detail - LF` per channel
and `texture = fmaxabsf` over the three channel high frequencies. -/
def wavelets_detail_level_RGB (detail LF : Pixel) : Pixel × ℚ :=
  let hf : Pixel := ⟨detail.r - LF.r, detail.g - LF.g, detail.b - LF.b⟩
  (hf, fmaxabs (fmaxabs hf.r hf.g) hf.b)

/-- The per-pixel high-frequency/texture computation of
`wavelets_detail_level_ratios` from filmicrgb.c: `HF = detail - LF` per
channel and `texture = fminabsf` over the three channel high frequencies. -/
def wavelets_detail_level_ratios (detail LF : Pixel) : Pixel × ℚ :=
  let hf : Pixel := ⟨detail.r - LF.r, detail.g - LF.g, detail.b - LF.b⟩
  (hf, fminabs (fminabs hf.r hf.g) hf.b)

/-- The per-scale data consumed by one iteration of the scale loop of
`reconstruct_highlights`: the (blurred) high-frequency buffer, the
low-frequency buffer and the single-channel texture buffer. In the source
these are produced from the running detail level by the separable B-spline
blurs; the accumulation step is independent of how they were produced, so
they are inputs here. -/
structure ScaleData where
  HF : Buf
  LF : Buf
  texture : Buf

/-- The accumulation loop over wavelet scales of `reconstruct_highlights`
from filmicrgb.c: starting from the `init_reconstruct` accumulator, each
scale adds its contribution through `wavelets_reconstruct_RGB` (variant 0)
or `wavelets_reconstruct_ratios` (variant 1). -/
def reconstruct_scales (variant : ℕ) (mask : Buf)
    (gamma gamma_comp beta beta_comp delta : ℚ) (scales : ℕ)
    (data : List ScaleData) (reconstructed : Buf) : Buf :=
  data.foldl
    (fun acc d =>
      if variant = 0 then
        wavelets_reconstruct_RGB d.HF d.LF d.texture mask acc
          gamma gamma_comp beta beta_comp delta scales
      else
        wavelets_reconstruct_ratios d.HF d.LF d.texture mask acc
          gamma gamma_comp beta beta_comp delta scales)
    reconstructed

/-- The curve-order enum `dt_iop_filmicrgb_curve_type_t`
(`DT_FILMIC_CURVE_POLY_3` / `DT_FILMIC_CURVE_POLY_4`). -/
inductive CurveType
  | poly3
  | poly4
deriving DecidableEq

/-- The color-science version enum `dt_iop_filmicrgb_colorscience_type_t`. -/
inductive ColorScience
  | v1
  | v2
deriving DecidableEq

/-- The fields of the user parameter set `dt_iop_filmicrgb_params_t` consumed
by the curve solver and the commit step. -/
structure Params where
  grey_point_source : ℚ
  black_point_source : ℚ
  white_point_source : ℚ
  grey_point_target : ℚ
  black_point_target : ℚ
  white_point_target : ℚ
  output_power : ℚ
  latitude : ℚ
  contrast : ℚ
  saturation : ℚ
  balance : ℚ
  custom_grey : Bool
  shadows : CurveType
  highlights : CurveType

/-- A 3-entry coefficient vector (toe, shoulder, latitude segment). -/
def vec3 (a b c : ℚ) : Fin 3 → ℚ :=
  fun i => if i = 0 then a else if i = 1 then b else c

/-- A 5-entry node vector. -/
def vec5 (a b c d e : ℚ) : Fin 5 → ℚ :=
  fun i => if i = 0 then a else if i = 1 then b else if i = 2 then c else if i = 3 then d else e

/-- Select a pivot row of maximal leading-coefficient magnitude; returns the
pivot row and the remaining rows. -/
def selectPivot : List (List ℚ) → Option (List ℚ × List (List ℚ))
  | [] => none
  | r :: rs =>
    match selectPivot rs with
    | none => some (r, [])
    | some (q, rest) =>
      if |q.headD 0| < |r.headD 0| then some (r, q :: rest) else some (q, r :: rest)

/-- Subtract the multiple of the pivot row that cancels the leading
coefficient of `row`; the result drops the leading column. -/
def elimRow (pivot row : List ℚ) : List ℚ :=
  match pivot, row with
  | pc :: pt, rc :: rt => List.zipWith (fun b a => b - rc / pc * a) rt pt
  | _, _ => []

/-- Forward elimination: repeatedly pick a pivot row and eliminate its
leading column from the remaining rows. The first argument is fuel (the row
count). -/
def gaussElim : ℕ → List (List ℚ) → List (List ℚ)
  | 0, _ => []
  | n + 1, rows =>
    match selectPivot rows with
    | none => []
    | some (q, rest) => q :: gaussElim n (rest.map (elimRow q))

/-- Right-hand side of a triangular row minus the dot product of its
coefficients with the already-solved unknowns (the last list element is the
row's right-hand side). -/
def solveRowRhs : List ℚ → List ℚ → ℚ
  | [r], _ => r
  | c :: rest, x :: sol => solveRowRhs rest sol - c * x
  | _, _ => 0

/-- Back substitution over the triangular rows produced by `gaussElim`. -/
def backSubst (rows : List (List ℚ)) : List ℚ :=
  rows.foldr
    (fun row sol =>
      (match row with
       | [] => 0
       | a :: rest => solveRowRhs rest sol / a) :: sol)
    []

/-- Modelled from the spec: `gauss_solve`, the linear solver called by the
curve solver, lives in the repository's Gaussian-elimination header which is
not part of the provided source — "Each solve is a small (4×4 or 5×5) linear
system on derivative/continuity constraints, solved once via Gaussian
elimination." Exact Gaussian elimination with partial (max-magnitude)
pivoting and back substitution; on a nonsingular system this returns the
unique solution. `A` is given as rows, `b` as the right-hand side. -/
def gauss_solve (A : List (List ℚ)) (b : List ℚ) : List ℚ :=
  backSubst (gaussElim A.length (List.zipWith (fun row r => row ++ [r]) A b))

/-- The local `grey_display` of `dt_iop_filmic_rgb_compute_spline`:
the target grey raised to `1/output_power` (`powf` passed as `powq`), or the
fixed 18.45% fallback. -/
def spline_grey_display (powq : ℚ → ℚ → ℚ) (p : Params) : ℚ :=
  if p.custom_grey then
    powq (CLAMP p.grey_point_target p.black_point_target p.white_point_target / 100)
      (1 / p.output_power)
  else
    powq 0.1845 (1 / p.output_power)

/-- The local `dynamic_range` of the curve solver and commit step:
`white_point_source - black_point_source`. -/
def dynamic_range (p : Params) : ℚ := p.white_point_source - p.black_point_source

/-- The local `grey_log` of the curve solver and commit step:
`fabsf(black_point_source) / dynamic_range`. -/
def grey_log (p : Params) : ℚ := |p.black_point_source| / dynamic_range p

/-- The local `black_display` of the curve solver. -/
def spline_black_display (p : Params) : ℚ :=
  CLAMP p.black_point_target 0 p.grey_point_target / 100

/-- The local `white_display` of the curve solver. -/
def spline_white_display (p : Params) : ℚ :=
  CLAMP p.white_point_target p.grey_point_target 100 / 100

/-- The local `latitude` of the curve solver, as a fraction of the dynamic
range. -/
def spline_latitude (p : Params) : ℚ := CLAMP p.latitude 0 100 / 100 * dynamic_range p

/-- The local `balance` of the curve solver. -/
def spline_balance (p : Params) : ℚ := CLAMP p.balance (-50) 50 / 100

/-- The local `contrast` of the curve solver: `CLAMP(contrast, 0.1, 2.0)`. -/
def spline_contrast (p : Params) : ℚ := CLAMP p.contrast (1/10) 2

/-- The balance shift coefficient `coeff = -((2*latitude)/dynamic_range)*balance`. -/
def spline_coeff (p : Params) : ℚ :=
  -(2 * spline_latitude p / dynamic_range p) * spline_balance p

/-- The slope norm `sqrtf(contrast*contrast + 1)` (`sqrtf` passed as `sqrtq`). -/
def spline_slope_norm (sqrtq : ℚ → ℚ) (p : Params) : ℚ :=
  sqrtq (spline_contrast p * spline_contrast p + 1)

/-- The toe abscissa after the balance shift. -/
def spline_toe_log (sqrtq : ℚ → ℚ) (p : Params) : ℚ :=
  grey_log p - spline_latitude p / dynamic_range p * |p.black_point_source / dynamic_range p|
    + spline_coeff p / spline_slope_norm sqrtq p

/-- The shoulder abscissa after the balance shift. -/
def spline_shoulder_log (sqrtq : ℚ → ℚ) (p : Params) : ℚ :=
  grey_log p + spline_latitude p / dynamic_range p * |p.white_point_source / dynamic_range p|
    + spline_coeff p / spline_slope_norm sqrtq p

/-- The central-segment intercept `grey_display - contrast * grey_log`. -/
def spline_linear_intercept (powq : ℚ → ℚ → ℚ) (p : Params) : ℚ :=
  spline_grey_display powq p - spline_contrast p * grey_log p

/-- The toe ordinate after the balance shift. -/
def spline_toe_display (powq : ℚ → ℚ → ℚ) (sqrtq : ℚ → ℚ) (p : Params) : ℚ :=
  (grey_log p - spline_latitude p / dynamic_range p * |p.black_point_source / dynamic_range p|)
      * spline_contrast p
    + spline_linear_intercept powq p
    + spline_coeff p * spline_contrast p / spline_slope_norm sqrtq p

/-- The shoulder ordinate after the balance shift. -/
def spline_shoulder_display (powq : ℚ → ℚ → ℚ) (sqrtq : ℚ → ℚ) (p : Params) : ℚ :=
  (grey_log p + spline_latitude p / dynamic_range p * |p.white_point_source / dynamic_range p|)
      * spline_contrast p
    + spline_linear_intercept powq p
    + spline_coeff p * spline_contrast p / spline_slope_norm sqrtq p

/-- The toe-segment polynomial coefficients, solved by Gaussian elimination
on the constraint system of `dt_iop_filmic_rgb_compute_spline` (4th-order
`ORDER_4 = 5` system for `DT_FILMIC_CURVE_POLY_4`, 3rd-order `ORDER_3 = 4`
system otherwise). The solution list is in descending power order. -/
def spline_toe_coeffs (powq : ℚ → ℚ → ℚ) (sqrtq : ℚ → ℚ) (p : Params) : List ℚ :=
  let Tl := spline_toe_log sqrtq p
  let Tl2 := Tl * Tl
  let Tl3 := Tl2 * Tl
  let Tl4 := Tl3 * Tl
  let y0 := spline_black_display p
  let y1 := spline_toe_display powq sqrtq p
  let c := spline_contrast p
  if p.shadows = CurveType.poly4 then
    gauss_solve
      [[0, 0, 0, 0, 1],
       [0, 0, 0, 1, 0],
       [Tl4, Tl3, Tl2, Tl, 1],
       [4 * Tl3, 3 * Tl2, 2 * Tl, 1, 0],
       [12 * Tl2, 6 * Tl, 2, 0, 0]]
      [y0, 0, y1, c, 0]
  else
    gauss_solve
      [[0, 0, 0, 1],
       [Tl3, Tl2, Tl, 1],
       [3 * Tl2, 2 * Tl, 1, 0],
       [6 * Tl, 2, 0, 0]]
      [y0, y1, c, 0]

/-- The shoulder-segment polynomial coefficients, solved by Gaussian
elimination on the constraint system of `dt_iop_filmic_rgb_compute_spline`
(3rd-order system for `DT_FILMIC_CURVE_POLY_3`, 4th-order otherwise). The
solution list is in descending power order. -/
def spline_shoulder_coeffs (powq : ℚ → ℚ → ℚ) (sqrtq : ℚ → ℚ) (p : Params) : List ℚ :=
  let Sl := spline_shoulder_log sqrtq p
  let Sl2 := Sl * Sl
  let Sl3 := Sl2 * Sl
  let Sl4 := Sl3 * Sl
  let y4 := spline_white_display p
  let y3 := spline_shoulder_display powq sqrtq p
  let c := spline_contrast p
  if p.highlights = CurveType.poly3 then
    gauss_solve
      [[1, 1, 1, 1],
       [Sl3, Sl2, Sl, 1],
       [3 * Sl2, 2 * Sl, 1, 0],
       [6 * Sl, 2, 0, 0]]
      [y4, y3, c, 0]
  else
    gauss_solve
      [[1, 1, 1, 1, 1],
       [4, 3, 2, 1, 0],
       [Sl4, Sl3, Sl2, Sl, 1],
       [4 * Sl3, 3 * Sl2, 2 * Sl, 1, 0],
       [12 * Sl2, 6 * Sl, 2, 0, 0]]
      [y4, 0, y3, c, 0]

/-- The toe coefficient stored in `spline->M(j+1)[0]`: the Gaussian solution
read back in ascending power order (`j = 0` is the constant coefficient),
with `M5[0] = 0` for the 3rd-order case. -/
def spline_toeM (powq : ℚ → ℚ → ℚ) (sqrtq : ℚ → ℚ) (p : Params) (j : ℕ) : ℚ :=
  if p.shadows = CurveType.poly4 then (spline_toe_coeffs powq sqrtq p).getD (4 - j) 0
  else if j = 4 then 0
  else (spline_toe_coeffs powq sqrtq p).getD (3 - j) 0

/-- The shoulder coefficient stored in `spline->M(j+1)[1]`: the Gaussian
solution read back in ascending power order (`j = 0` is the constant
coefficient), with `M5[1] = 0` for the 3rd-order case. -/
def spline_shoulderM (powq : ℚ → ℚ → ℚ) (sqrtq : ℚ → ℚ) (p : Params) (j : ℕ) : ℚ :=
  if p.highlights = CurveType.poly3 then
    if j = 4 then 0 else (spline_shoulder_coeffs powq sqrtq p).getD (3 - j) 0
  else (spline_shoulder_coeffs powq sqrtq p).getD (4 - j) 0

/-- `dt_iop_filmic_rgb_compute_spline` from filmicrgb.c: build the five
control nodes, solve the central affine segment directly and the toe and
shoulder polynomials by Gaussian elimination. `powf` is passed as `powq`
and `sqrtf` as `sqrtq`. -/
def dt_iop_filmic_rgb_compute_spline (powq : ℚ → ℚ → ℚ) (sqrtq : ℚ → ℚ)
    (p : Params) : Spline :=
  { M1 := vec3 (spline_toeM powq sqrtq p 0) (spline_shoulderM powq sqrtq p 0)
      (spline_toe_display powq sqrtq p - spline_contrast p * spline_toe_log sqrtq p)
    M2 := vec3 (spline_toeM powq sqrtq p 1) (spline_shoulderM powq sqrtq p 1) (spline_contrast p)
    M3 := vec3 (spline_toeM powq sqrtq p 2) (spline_shoulderM powq sqrtq p 2) 0
    M4 := vec3 (spline_toeM powq sqrtq p 3) (spline_shoulderM powq sqrtq p 3) 0
    M5 := vec3 (spline_toeM powq sqrtq p 4) (spline_shoulderM powq sqrtq p 4) 0
    x := vec5 0 (spline_toe_log sqrtq p) (grey_log p) (spline_shoulder_log sqrtq p) 1
    y := vec5 (spline_black_display p) (spline_toe_display powq sqrtq p)
      (spline_grey_display powq p) (spline_shoulder_display powq sqrtq p)
      (spline_white_display p)
    latitude_min := spline_toe_log sqrtq p
    latitude_max := spline_shoulder_log sqrtq p }

/-- A concrete parameter set within the UI ranges whose extreme
latitude/balance combination shifts the toe abscissa (0.8) past the grey
abscissa (1/11): 18.45% grey, black −1 EV, white +10 EV, output power 1,
contrast 0.75, latitude 100, balance −50. -/
def cexParams : Params :=
  { grey_point_source := 18.45
    black_point_source := -1
    white_point_source := 10
    grey_point_target := 18.45
    black_point_target := 0
    white_point_target := 100
    output_power := 1
    latitude := 100
    contrast := 3/4
    saturation := 50
    balance := -50
    custom_grey := false
    shadows := CurveType.poly4
    highlights := CurveType.poly3 }

/-- A concrete parameter set close to the module defaults (grey 18.45%,
black −8 EV, white +4 EV, latitude 33, balance 0) whose latitude interval
straddles the grey abscissa. -/
def fidelityParams : Params :=
  { grey_point_source := 18.45
    black_point_source := -8
    white_point_source := 4
    grey_point_target := 18.45
    black_point_target := 0
    white_point_target := 100
    output_power := 2.2
    latitude := 33
    contrast := 1.35
    saturation := 50
    balance := 0
    custom_grey := false
    shadows := CurveType.poly4
    highlights := CurveType.poly3 }

/-- The local `grey_display` of `commit_params`: note that unlike the curve
solver it does not clamp the custom grey target. -/
def commit_grey_display (powq : ℚ → ℚ → ℚ) (p : Params) : ℚ :=
  if p.custom_grey then powq (p.grey_point_target / 100) (1 / p.output_power)
  else powq 0.1845 (1 / p.output_power)

/-- The contrast committed by `commit_params`: the user contrast, raised to
`1.0001f * grey_display / grey_log` whenever it falls below
`grey_display / grey_log`. -/
def commit_contrast (powq : ℚ → ℚ → ℚ) (p : Params) : ℚ :=
  if p.contrast < commit_grey_display powq p / grey_log p then
    1.0001 * commit_grey_display powq p / grey_log p
  else
    p.contrast

/-- The fields of the committed per-render data `dt_iop_filmicrgb_data_t`
consumed by the per-pixel tone-mapping kernels. -/
structure FilmicData where
  grey_source : ℚ
  black_source : ℚ
  dynamic_range : ℚ
  saturation : ℚ
  sigma_toe : ℚ
  sigma_shoulder : ℚ
  output_power : ℚ

/-- The per-pixel body of `filmic_split_v1` from filmicrgb.c: log-encode each
channel (pre-floored at `2^(-16)`), desaturate toward the luminance of the
encoded triple, evaluate the spline per channel (clamped to `[0,1]`), and
apply the output power. `log2f`, `expf`, `powf` and the profile luminance are
passed as `log2q`, `expq`, `powq`, `lumq`. -/
def filmic_split_v1_pixel (log2q expq : ℚ → ℚ) (powq : ℚ → ℚ → ℚ)
    (lumq : ℚ → ℚ → ℚ → ℚ) (d : FilmicData) (s : Spline) (pin : Pixel) : Pixel :=
  let t : Pixel :=
    ⟨log_tonemapping_v1 log2q (if pin.r < noiseFloor then noiseFloor else pin.r)
        d.grey_source d.black_source d.dynamic_range,
     log_tonemapping_v1 log2q (if pin.g < noiseFloor then noiseFloor else pin.g)
        d.grey_source d.black_source d.dynamic_range,
     log_tonemapping_v1 log2q (if pin.b < noiseFloor then noiseFloor else pin.b)
        d.grey_source d.black_source d.dynamic_range⟩
  let lum := lumq t.r t.g t.b
  let desaturation := filmic_desaturate_v1 expq lum d.sigma_toe d.sigma_shoulder d.saturation
  ⟨powq (clamp_simd (filmic_spline s (linear_saturation t.r lum desaturation))) d.output_power,
   powq (clamp_simd (filmic_spline s (linear_saturation t.g lum desaturation))) d.output_power,
   powq (clamp_simd (filmic_spline s (linear_saturation t.b lum desaturation))) d.output_power⟩

/-- The per-pixel body of `filmic_split_v2` from filmicrgb.c: as
`filmic_split_v1` but with the v2 log encoder and v2 desaturation
(which also needs `sqrtf`, passed as `sqrtq`). -/
def filmic_split_v2_pixel (log2q expq sqrtq : ℚ → ℚ) (powq : ℚ → ℚ → ℚ)
    (lumq : ℚ → ℚ → ℚ → ℚ) (d : FilmicData) (s : Spline) (pin : Pixel) : Pixel :=
  let t : Pixel :=
    ⟨log_tonemapping_v2 log2q (if pin.r < noiseFloor then noiseFloor else pin.r)
        d.grey_source d.black_source d.dynamic_range,
     log_tonemapping_v2 log2q (if pin.g < noiseFloor then noiseFloor else pin.g)
        d.grey_source d.black_source d.dynamic_range,
     log_tonemapping_v2 log2q (if pin.b < noiseFloor then noiseFloor else pin.b)
        d.grey_source d.black_source d.dynamic_range⟩
  let lum := lumq t.r t.g t.b
  let desaturation := filmic_desaturate_v2 expq sqrtq lum d.sigma_toe d.sigma_shoulder d.saturation
  ⟨powq (clamp_simd (filmic_spline s (linear_saturation t.r lum desaturation))) d.output_power,
   powq (clamp_simd (filmic_spline s (linear_saturation t.g lum desaturation))) d.output_power,
   powq (clamp_simd (filmic_spline s (linear_saturation t.b lum desaturation))) d.output_power⟩

/-- The per-pixel body of `filmic_chroma_v1` from filmicrgb.c: take the
(floored) norm, sanitize the ratios, log-encode and curve the norm alone,
desaturate the ratios, and recombine. -/
def filmic_chroma_v1_pixel (log2q expq : ℚ → ℚ) (powq : ℚ → ℚ → ℚ)
    (lumq : ℚ → ℚ → ℚ → ℚ) (variant : NormMethod) (d : FilmicData) (s : Spline)
    (pin : Pixel) : Pixel :=
  let norm0 := floor_norm (get_pixel_norm lumq variant pin.r pin.g pin.b)
  let ratios : Pixel := ⟨pin.r / norm0, pin.g / norm0, pin.b / norm0⟩
  let min_ratios := min (min ratios.r ratios.g) ratios.b
  let rs : Pixel :=
    if min_ratios < 0 then
      ⟨ratios.r - min_ratios, ratios.g - min_ratios, ratios.b - min_ratios⟩
    else ratios
  let normL := log_tonemapping_v1 log2q norm0 d.grey_source d.black_source d.dynamic_range
  let desaturation := filmic_desaturate_v1 expq normL d.sigma_toe d.sigma_shoulder d.saturation
  let rn : Pixel := ⟨rs.r * normL, rs.g * normL, rs.b * normL⟩
  let lum := lumq rn.r rn.g rn.b
  let rf : Pixel :=
    ⟨linear_saturation rn.r lum desaturation / normL,
     linear_saturation rn.g lum desaturation / normL,
     linear_saturation rn.b lum desaturation / normL⟩
  let normC := powq (clamp_simd (filmic_spline s normL)) d.output_power
  ⟨rf.r * normC, rf.g * normC, rf.b * normC⟩

/-- The local `norm` of `filmic_chroma_v2` before log encoding: the pixel
norm floored at `2^(-16)`. -/
def chroma_v2_norm0 (lumq : ℚ → ℚ → ℚ → ℚ) (variant : NormMethod) (pin : Pixel) : ℚ :=
  floor_norm (get_pixel_norm lumq variant pin.r pin.g pin.b)

/-- The local `ratios` of `filmic_chroma_v2` after sanitization: each channel
divided by the floored norm, all channels shifted up by the minimum ratio
when it is negative. -/
def chroma_v2_rs (lumq : ℚ → ℚ → ℚ → ℚ) (variant : NormMethod) (pin : Pixel) : Pixel :=
  let n := chroma_v2_norm0 lumq variant pin
  let ratios : Pixel := ⟨pin.r / n, pin.g / n, pin.b / n⟩
  let min_ratios := min (min ratios.r ratios.g) ratios.b
  if min_ratios < 0 then
    ⟨ratios.r - min_ratios, ratios.g - min_ratios, ratios.b - min_ratios⟩
  else ratios

/-- The log-encoded norm of `filmic_chroma_v2`. -/
def chroma_v2_normL (log2q : ℚ → ℚ) (lumq : ℚ → ℚ → ℚ → ℚ) (variant : NormMethod)
    (d : FilmicData) (pin : Pixel) : ℚ :=
  log_tonemapping_v2 log2q (chroma_v2_norm0 lumq variant pin)
    d.grey_source d.black_source d.dynamic_range

/-- The curved and power-transferred norm of `filmic_chroma_v2`:
`powf(clamp_simd(filmic_spline(norm)), output_power)`. -/
def chroma_v2_normC (log2q : ℚ → ℚ) (powq : ℚ → ℚ → ℚ) (lumq : ℚ → ℚ → ℚ → ℚ)
    (variant : NormMethod) (d : FilmicData) (s : Spline) (pin : Pixel) : ℚ :=
  powq (clamp_simd (filmic_spline s (chroma_v2_normL log2q lumq variant d pin)))
    d.output_power

/-- The ratios of `filmic_chroma_v2` after desaturation toward 1 and
flooring at 0: `fmaxf(ratio + (1 - ratio) * (1 - desaturation), 0)`. -/
def chroma_v2_r2 (log2q expq sqrtq : ℚ → ℚ) (lumq : ℚ → ℚ → ℚ → ℚ)
    (variant : NormMethod) (d : FilmicData) (pin : Pixel) : Pixel :=
  let rs := chroma_v2_rs lumq variant pin
  let desaturation := filmic_desaturate_v2 expq sqrtq
    (chroma_v2_normL log2q lumq variant d pin) d.sigma_toe d.sigma_shoulder d.saturation
  ⟨max (rs.r + (1 - rs.r) * (1 - desaturation)) 0,
   max (rs.g + (1 - rs.g) * (1 - desaturation)) 0,
   max (rs.b + (1 - rs.b) * (1 - desaturation)) 0⟩

/-- The pre-gamut-mapping output of `filmic_chroma_v2`:
desaturated ratios times the curved norm. -/
def chroma_v2_pout (log2q expq sqrtq : ℚ → ℚ) (powq : ℚ → ℚ → ℚ)
    (lumq : ℚ → ℚ → ℚ → ℚ) (variant : NormMethod) (d : FilmicData) (s : Spline)
    (pin : Pixel) : Pixel :=
  ⟨(chroma_v2_r2 log2q expq sqrtq lumq variant d pin).r
      * chroma_v2_normC log2q powq lumq variant d s pin,
   (chroma_v2_r2 log2q expq sqrtq lumq variant d pin).g
      * chroma_v2_normC log2q powq lumq variant d s pin,
   (chroma_v2_r2 log2q expq sqrtq lumq variant d pin).b
      * chroma_v2_normC log2q powq lumq variant d s pin⟩

/-- The per-pixel body of `filmic_chroma_v2` from filmicrgb.c: as v1 but with
the v2 encoder/desaturation, ratio desaturation toward 1, and a final gamut
branch that uniformly penalizes the ratios by the clipping excess and
hard-clamps whenever the max output channel exceeds 1. -/
def filmic_chroma_v2_pixel (log2q expq sqrtq : ℚ → ℚ) (powq : ℚ → ℚ → ℚ)
    (lumq : ℚ → ℚ → ℚ → ℚ) (variant : NormMethod) (d : FilmicData) (s : Spline)
    (pin : Pixel) : Pixel :=
  let pout := chroma_v2_pout log2q expq sqrtq powq lumq variant d s pin
  let max_pix := max (max pout.r pout.g) pout.b
  let r2 := chroma_v2_r2 log2q expq sqrtq lumq variant d pin
  let normC := chroma_v2_normC log2q powq lumq variant d s pin
  if 1 < max_pix then
    ⟨clamp_simd (max (r2.r + (1 - max_pix)) 0 * normC),
     clamp_simd (max (r2.g + (1 - max_pix)) 0 * normC),
     clamp_simd (max (r2.b + (1 - max_pix)) 0 * normC)⟩
  else pout

/-- Read the color channel `k % 4` of a pixel (`k % 4 < 3`). -/
def Pixel.channel (px : Pixel) (c : ℕ) : ℚ :=
  if c = 0 then px.r else if c = 1 then px.g else px.b

/-- The pixel of buffer `inp` containing flat element index `k`. -/
def pixelAt (inp : Buf) (k : ℕ) : Pixel :=
  ⟨inp (4 * (k / 4)), inp (4 * (k / 4) + 1), inp (4 * (k / 4) + 2)⟩

/-- `filmic_split_v1` as a buffer transformation: each pixel's three color
channels of `out` are written from the per-pixel kernel, the fourth channel
of `out` is not written. -/
def filmic_split_v1 (log2q expq : ℚ → ℚ) (powq : ℚ → ℚ → ℚ)
    (lumq : ℚ → ℚ → ℚ → ℚ) (d : FilmicData) (s : Spline) (inp out : Buf) : Buf :=
  fun k =>
    if k % 4 < 3 then
      (filmic_split_v1_pixel log2q expq powq lumq d s (pixelAt inp k)).channel (k % 4)
    else out k

/-- `filmic_split_v2` as a buffer transformation. -/
def filmic_split_v2 (log2q expq sqrtq : ℚ → ℚ) (powq : ℚ → ℚ → ℚ)
    (lumq : ℚ → ℚ → ℚ → ℚ) (d : FilmicData) (s : Spline) (inp out : Buf) : Buf :=
  fun k =>
    if k % 4 < 3 then
      (filmic_split_v2_pixel log2q expq sqrtq powq lumq d s (pixelAt inp k)).channel (k % 4)
    else out k

/-- `filmic_chroma_v1` as a buffer transformation. -/
def filmic_chroma_v1 (log2q expq : ℚ → ℚ) (powq : ℚ → ℚ → ℚ)
    (lumq : ℚ → ℚ → ℚ → ℚ) (variant : NormMethod) (d : FilmicData) (s : Spline)
    (inp out : Buf) : Buf :=
  fun k =>
    if k % 4 < 3 then
      (filmic_chroma_v1_pixel log2q expq powq lumq variant d s (pixelAt inp k)).channel (k % 4)
    else out k

/-- `filmic_chroma_v2` as a buffer transformation. -/
def filmic_chroma_v2 (log2q expq sqrtq : ℚ → ℚ) (powq : ℚ → ℚ → ℚ)
    (lumq : ℚ → ℚ → ℚ → ℚ) (variant : NormMethod) (d : FilmicData) (s : Spline)
    (inp out : Buf) : Buf :=
  fun k =>
    if k % 4 < 3 then
      (filmic_chroma_v2_pixel log2q expq sqrtq powq lumq variant d s (pixelAt inp k)).channel (k % 4)
    else out k

/-- The tone-mapping dispatch of `process` in filmicrgb.c (lines selecting
among the four kernels by chroma-preservation variant and color-science
version). -/
def process_tonemap (log2q expq sqrtq : ℚ → ℚ) (powq : ℚ → ℚ → ℚ)
    (lumq : ℚ → ℚ → ℚ → ℚ) (version : ColorScience) (variant : NormMethod)
    (d : FilmicData) (s : Spline) (inp out : Buf) : Buf :=
  match variant, version with
  | .nonePreserved, .v1 => filmic_split_v1 log2q expq powq lumq d s inp out
  | .nonePreserved, .v2 => filmic_split_v2 log2q expq sqrtq powq lumq d s inp out
  | v, .v1 => filmic_chroma_v1 log2q expq powq lumq v d s inp out
  | v, .v2 => filmic_chroma_v2 log2q expq sqrtq powq lumq v d s inp out

/-- The five scratch buffers allocated by `reconstruct_highlights`
(`dt_alloc_sse_ps` returning NULL on failure is modelled by `Option`). -/
structure ReconAllocs where
  LF_even : Option Buf
  LF_odd : Option Buf
  HF_RGB : Option Buf
  HF_grey : Option Buf
  temp : Option Buf

/-- `reconstruct_highlights` from filmicrgb.c: if any scratch-buffer
allocation failed it logs a diagnostic and returns `FALSE` without touching
the accumulator; otherwise it initializes the accumulator with
`init_reconstruct` and runs the scale loop, returning `TRUE`. Returns the
success flag and the (possibly updated) accumulator. -/
def reconstruct_highlights (a : ReconAllocs) (inp mask reconstructed : Buf)
    (variant : ℕ) (gamma gamma_comp beta beta_comp delta : ℚ) (scales : ℕ)
    (data : List ScaleData) : Bool × Buf :=
  if a.LF_even.isSome ∧ a.LF_odd.isSome ∧ a.HF_RGB.isSome ∧ a.HF_grey.isSome ∧
      a.temp.isSome then
    (true,
     reconstruct_scales variant mask gamma gamma_comp beta beta_comp delta scales data
       (init_reconstruct inp mask))
  else (false, reconstructed)

/-- The highlight-reconstruction section of `process` in filmicrgb.c: when
reconstruction is requested and the mask and accumulator allocations
succeeded, run pass 1 and use its result as the tone-mapper input only if it
reported success (`if(success_1) in = reconstructed`); the original buffer is
used otherwise. -/
def process_tone_input (recover_highlights : Bool)
    (mask_alloc reconstructed_alloc : Option Buf) (pass1 : ReconAllocs)
    (inp maskBuf : Buf) (gamma gamma_comp beta beta_comp delta : ℚ) (scales : ℕ)
    (data : List ScaleData) : Buf :=
  if recover_highlights ∧ mask_alloc.isSome ∧ reconstructed_alloc.isSome then
    let res := reconstruct_highlights pass1 inp maskBuf
      (reconstructed_alloc.getD (fun _ => 0)) 0 gamma gamma_comp beta beta_comp delta
      scales data
    if res.1 then res.2 else inp
  else inp

/-- `process` from filmicrgb.c, reduced to its control flow: abort (return
`none`) only when the input does not have 4 channels; otherwise reconstruct
(or not) and always tone-map, producing an output buffer. -/
def process (colors : ℕ) (log2q expq sqrtq : ℚ → ℚ) (powq : ℚ → ℚ → ℚ)
    (lumq : ℚ → ℚ → ℚ → ℚ) (version : ColorScience) (variant : NormMethod)
    (d : FilmicData) (s : Spline) (recover_highlights : Bool)
    (mask_alloc reconstructed_alloc : Option Buf) (pass1 : ReconAllocs)
    (inp out maskBuf : Buf) (gamma gamma_comp beta beta_comp delta : ℚ)
    (scales : ℕ) (data : List ScaleData) : Option Buf :=
  if colors ≠ 4 then none
  else
    some (process_tonemap log2q expq sqrtq powq lumq version variant d s
      (process_tone_input recover_highlights mask_alloc reconstructed_alloc pass1
        inp maskBuf gamma gamma_comp beta beta_comp delta scales data)
      out)

/-- All three color channels of a pixel lie in `[0, 1]`. -/
def inUnit (px : Pixel) : Prop :=
  0 ≤ px.r ∧ px.r ≤ 1 ∧ 0 ≤ px.g ∧ px.g ≤ 1 ∧ 0 ≤ px.b ∧ px.b ≤ 1

end FilmicRGB

namespace FilmicRGB

/-- C2: both log encoders clamp the normalized log value — `log_tonemapping_v1`
into `[1.52587890625e-05, 1]` and `log_tonemapping_v2` into `[0, 1]` — for
every input, grey point, black point and dynamic range, and for every
behaviour of `log2f`. -/
theorem log_tonemapping_bounds (log2q : ℚ → ℚ) (x grey black dynamic_range : ℚ) :
    noiseFloor ≤ log_tonemapping_v1 log2q x grey black dynamic_range ∧
    log_tonemapping_v1 log2q x grey black dynamic_range ≤ 1 ∧
    0 ≤ log_tonemapping_v2 log2q x grey black dynamic_range ∧
    log_tonemapping_v2 log2q x grey black dynamic_range ≤ 1 := by
  refine ⟨le_max_right _ _, max_le (min_le_right _ _) (by norm_num [noiseFloor]), ?_, ?_⟩
  · exact le_min (le_max_right _ _) (by norm_num)
  · exact min_le_right _ _

/-- C3: with `normalize = feather / threshold`, every stored mask weight
`1/(1 + 2^argument)` lies in `[0, 1]` (for any nonnegative behaviour of
`exp2f`), the sigmoid argument equals
`feather - pix_norm * (feather / threshold)`, and the function requests
reconstruction exactly when at least 10 pixels have `argument < 4`. -/
theorem mask_clipped_pixels_spec (sqrtq exp2q : ℚ → ℚ)
    (threshold feathering : ℚ) (pixels : List Pixel)
    (hexp : ∀ a, 0 ≤ exp2q a) :
    (∀ w ∈ (mask_clipped_pixels sqrtq exp2q (feathering / threshold) feathering pixels).1,
      0 ≤ w ∧ w ≤ 1) ∧
    (∀ p : Pixel, mask_argument sqrtq (feathering / threshold) feathering p
      = feathering - sqrtq (sqf p.r + sqf p.g + sqf p.b) * (feathering / threshold)) ∧
    ((mask_clipped_pixels sqrtq exp2q (feathering / threshold) feathering pixels).2.2 = true ↔
      10 ≤ (mask_clipped_pixels sqrtq exp2q (feathering / threshold) feathering pixels).2.1) := by
  refine ⟨?_, ?_, ?_⟩
  · intro w hw
    simp only [mask_clipped_pixels, List.mem_map] at hw
    obtain ⟨p, -, rfl⟩ := hw
    have h1 : (0:ℚ) < 1 + exp2q (mask_argument sqrtq (feathering / threshold) feathering p) := by
      have := hexp (mask_argument sqrtq (feathering / threshold) feathering p)
      linarith
    constructor
    · exact div_nonneg zero_le_one h1.le
    · rw [mask_weight, div_le_one h1]
      have := hexp (mask_argument sqrtq (feathering / threshold) feathering p)
      linarith
  · intro p
    simp only [mask_argument]
    ring
  · simp only [mask_clipped_pixels, decide_eq_true_eq]
    omega

/-- C5: `compute_ratios` followed by `restore_ratios` reproduces the original
RGB triple exactly (the stored norm is floored at `2^(-16) > 0`, so the
division is invertible), for any norm method, profile luminance and any
pixel with nonnegative channels. -/
theorem compute_restore_ratios_roundtrip (lumq : ℚ → ℚ → ℚ → ℚ)
    (variant : NormMethod) (p : Pixel)
    (hr : 0 ≤ p.r) (hg : 0 ≤ p.g) (hb : 0 ≤ p.b) :
    restore_ratios (compute_ratios lumq variant p).1 (compute_ratios lumq variant p).2 = p := by
  have hpos : ∀ n : ℚ, 0 < floor_norm n := by
    intro n
    rw [floor_norm]
    split
    · norm_num [noiseFloor]
    · rename_i h
      have : noiseFloor ≤ n := le_of_not_lt h
      have : (0:ℚ) < noiseFloor := by norm_num [noiseFloor]
      linarith
  have hne := (hpos (get_pixel_norm lumq variant p.r p.g p.b)).ne'
  cases p with
  | mk r g b =>
    simp only [compute_ratios, restore_ratios]
    congr 1 <;> exact div_mul_cancel₀ _ hne

/-- Helper: a single accumulation of `wavelets_reconstruct_RGB` leaves the
accumulator unchanged when the mask is identically zero. -/
lemma wavelets_reconstruct_RGB_zero_mask (HF LF texture mask reconstructed : Buf)
    (gamma gamma_comp beta beta_comp delta : ℚ) (scales : ℕ)
    (hm : ∀ i, mask i = 0) (k : ℕ) :
    wavelets_reconstruct_RGB HF LF texture mask reconstructed
      gamma gamma_comp beta beta_comp delta scales k = reconstructed k := by
  rw [wavelets_reconstruct_RGB]
  split
  · simp [hm]
  · rfl

/-- Helper: a single accumulation of `wavelets_reconstruct_ratios` leaves the
accumulator unchanged when the mask is identically zero. -/
lemma wavelets_reconstruct_ratios_zero_mask (HF LF texture mask reconstructed : Buf)
    (gamma gamma_comp beta beta_comp delta : ℚ) (scales : ℕ)
    (hm : ∀ i, mask i = 0) (k : ℕ) :
    wavelets_reconstruct_ratios HF LF texture mask reconstructed
      gamma gamma_comp beta beta_comp delta scales k = reconstructed k := by
  rw [wavelets_reconstruct_ratios]
  split
  · simp [hm]
  · rfl

/-- Helper: the whole scale loop fixes any accumulator pointwise under an
identically zero mask. -/
lemma reconstruct_scales_zero_mask (variant : ℕ) (mask : Buf)
    (gamma gamma_comp beta beta_comp delta : ℚ) (scales : ℕ)
    (data : List ScaleData) (reconstructed : Buf)
    (hm : ∀ i, mask i = 0) (k : ℕ) :
    reconstruct_scales variant mask gamma gamma_comp beta beta_comp delta scales
      data reconstructed k = reconstructed k := by
  induction data generalizing reconstructed with
  | nil => rfl
  | cons d ds ih =>
    have hstep : reconstruct_scales variant mask gamma gamma_comp beta beta_comp delta scales
        (d :: ds) reconstructed
        = reconstruct_scales variant mask gamma gamma_comp beta beta_comp delta scales ds
            (if variant = 0 then
              wavelets_reconstruct_RGB d.HF d.LF d.texture mask reconstructed
                gamma gamma_comp beta beta_comp delta scales
            else
              wavelets_reconstruct_ratios d.HF d.LF d.texture mask reconstructed
                gamma gamma_comp beta beta_comp delta scales) := rfl
    rw [hstep, ih]
    split
    · exact wavelets_reconstruct_RGB_zero_mask _ _ _ _ _ _ _ _ _ _ _ hm k
    · exact wavelets_reconstruct_ratios_zero_mask _ _ _ _ _ _ _ _ _ _ _ hm k

/-- C4: if every mask value is exactly 0, the wavelet reconstruction's output
accumulator equals the original input buffer exactly: `init_reconstruct`
yields `input * (1 - 0) = input` and each per-scale accumulation of
`wavelets_reconstruct_RGB` is scaled by the zero mask, for any number of
scales and any per-scale wavelet buffers. -/
theorem reconstruction_noop_on_zero_mask (inp mask : Buf)
    (gamma gamma_comp beta beta_comp delta : ℚ) (scales : ℕ)
    (data : List ScaleData) (hm : ∀ i, mask i = 0) (k : ℕ) :
    reconstruct_scales 0 mask gamma gamma_comp beta beta_comp delta scales
      data (init_reconstruct inp mask) k = inp k := by
  rw [reconstruct_scales_zero_mask 0 mask gamma gamma_comp beta beta_comp delta scales
    data (init_reconstruct inp mask) hm k]
  rw [init_reconstruct, hm, sub_zero, mul_one]

/-- Witness for C4 at a concrete configuration: zero mask, constant input 5,
one scale of arbitrary nonzero wavelet buffers. -/
theorem reconstruction_noop_on_zero_mask_witness :
    reconstruct_scales 0 (fun _ => 0) 1 0 1 0 1 1
      [⟨fun _ => 5, fun _ => 7, fun _ => 11⟩]
      (init_reconstruct (fun _ => 5) (fun _ => 0)) 2 = 5 :=
  reconstruction_noop_on_zero_mask (fun _ => 5) (fun _ => 0) 1 0 1 0 1 1
    [⟨fun _ => 5, fun _ => 7, fun _ => 11⟩] (fun _ => rfl) 2

/-- Witness for C3 at a concrete configuration: the identity in place of
`sqrtf`, the constant 1 in place of `exp2f`, threshold 1, feather 2, and a
single pixel. -/
theorem mask_clipped_pixels_spec_witness :
    (∀ w ∈ (mask_clipped_pixels (fun a => a) (fun _ => 1) (2 / 1) 2 [⟨1, 0, 0⟩]).1,
      0 ≤ w ∧ w ≤ 1) ∧
    (∀ p : Pixel, mask_argument (fun a => a) (2 / 1) 2 p
      = 2 - (sqf p.r + sqf p.g + sqf p.b) * (2 / 1)) ∧
    ((mask_clipped_pixels (fun a => a) (fun _ => 1) (2 / 1) 2 [⟨1, 0, 0⟩]).2.2 = true ↔
      10 ≤ (mask_clipped_pixels (fun a => a) (fun _ => 1) (2 / 1) 2 [⟨1, 0, 0⟩]).2.1) :=
  mask_clipped_pixels_spec (fun a => a) (fun _ => 1) 1 2 [⟨1, 0, 0⟩] (fun _ => zero_le_one)

/-- Witness for C5 at a concrete input: max-RGB norm on the pixel (1, 2, 3). -/
theorem compute_restore_ratios_roundtrip_witness :
    restore_ratios (compute_ratios (fun _ _ _ => 0) .maxRGB ⟨1, 2, 3⟩).1
      (compute_ratios (fun _ _ _ => 0) .maxRGB ⟨1, 2, 3⟩).2 = ⟨1, 2, 3⟩ :=
  compute_restore_ratios_roundtrip (fun _ _ _ => 0) .maxRGB ⟨1, 2, 3⟩
    (by norm_num) (by norm_num) (by norm_num)

/-- C6 (counterexample): at a pixel whose low-frequency channels are
`(1, 2, 3)` — with weights chosen so only the residual term survives —
`wavelets_reconstruct_ratios` accumulates the `max` of the low-frequency
channels (giving 3) while `wavelets_reconstruct_RGB` accumulates their `min`
(giving 1), the opposite of the claimed min-for-ratios / max-for-RGB. -/
theorem wavelets_residual_combination_counterexample :
    wavelets_reconstruct_ratios (fun _ => 0) (fun k => (k : ℚ) + 1) (fun _ => 0)
      (fun _ => 1) (fun _ => 0) 0 0 0 1 0 1 0 = 3 ∧
    wavelets_reconstruct_RGB (fun _ => 0) (fun k => (k : ℚ) + 1) (fun _ => 0)
      (fun _ => 1) (fun _ => 0) 0 0 0 1 0 1 0 = 1 ∧
    (3 : ℚ) ≠ 1 := by
  refine ⟨?_, ?_, by norm_num⟩
  · norm_num [wavelets_reconstruct_ratios, fmaxabs]
  · norm_num [wavelets_reconstruct_RGB, fmaxabs]

/-- C6 (amended): `wavelets_reconstruct_ratios` differs from
`wavelets_reconstruct_RGB` exactly by replacing the `min` cross-channel
combination of the low-frequency residual with `max`: on every color channel
the two results differ by `mask * beta_comp * (max LF - min LF) / scales`,
and on the fourth channel they agree. -/
theorem wavelets_ratios_vs_RGB_residual_swap (HF LF texture mask reconstructed : Buf)
    (gamma gamma_comp beta beta_comp delta : ℚ) (scales : ℕ) (k : ℕ) :
    wavelets_reconstruct_ratios HF LF texture mask reconstructed
      gamma gamma_comp beta beta_comp delta scales k
      = wavelets_reconstruct_RGB HF LF texture mask reconstructed
          gamma gamma_comp beta beta_comp delta scales k
        + (if k % 4 < 3 then
            mask (k / 4) * (beta_comp
              * (max (max (LF (4 * (k / 4))) (LF (4 * (k / 4) + 1))) (LF (4 * (k / 4) + 2))
                - min (min (LF (4 * (k / 4))) (LF (4 * (k / 4) + 1))) (LF (4 * (k / 4) + 2)))
              / (scales : ℚ))
          else 0) := by
  rw [wavelets_reconstruct_ratios, wavelets_reconstruct_RGB]
  split
  · ring
  · ring

/-- C1 (amended): whenever the balance-shifted toe and shoulder abscissas
straddle the grey abscissa (`toe_log ≤ grey_log ≤ shoulder_log`), the spline
built by `dt_iop_filmic_rgb_compute_spline` has an affine central segment of
slope equal to the clamped contrast, and evaluating `filmic_spline` at the
toe, grey and shoulder abscissas reproduces the corresponding ordinates
exactly (hence within any positive tolerance), for every parameter set and
every behaviour of `powf` and `sqrtf`. -/
theorem spline_node_fidelity (powq : ℚ → ℚ → ℚ) (sqrtq : ℚ → ℚ) (p : Params)
    (h1 : spline_toe_log sqrtq p ≤ grey_log p)
    (h2 : grey_log p ≤ spline_shoulder_log sqrtq p) :
    ((dt_iop_filmic_rgb_compute_spline powq sqrtq p).M2 2 = spline_contrast p ∧
     (dt_iop_filmic_rgb_compute_spline powq sqrtq p).M3 2 = 0 ∧
     (dt_iop_filmic_rgb_compute_spline powq sqrtq p).M4 2 = 0 ∧
     (dt_iop_filmic_rgb_compute_spline powq sqrtq p).M5 2 = 0) ∧
    filmic_spline (dt_iop_filmic_rgb_compute_spline powq sqrtq p)
        ((dt_iop_filmic_rgb_compute_spline powq sqrtq p).x 1)
      = (dt_iop_filmic_rgb_compute_spline powq sqrtq p).y 1 ∧
    filmic_spline (dt_iop_filmic_rgb_compute_spline powq sqrtq p)
        ((dt_iop_filmic_rgb_compute_spline powq sqrtq p).x 2)
      = (dt_iop_filmic_rgb_compute_spline powq sqrtq p).y 2 ∧
    filmic_spline (dt_iop_filmic_rgb_compute_spline powq sqrtq p)
        ((dt_iop_filmic_rgb_compute_spline powq sqrtq p).x 3)
      = (dt_iop_filmic_rgb_compute_spline powq sqrtq p).y 3 := by
  have hx1 : (dt_iop_filmic_rgb_compute_spline powq sqrtq p).x 1
    = spline_toe_log sqrtq p := rfl
  have hx2 : (dt_iop_filmic_rgb_compute_spline powq sqrtq p).x 2 = grey_log p := rfl
  have hx3 : (dt_iop_filmic_rgb_compute_spline powq sqrtq p).x 3
    = spline_shoulder_log sqrtq p := rfl
  have hy1 : (dt_iop_filmic_rgb_compute_spline powq sqrtq p).y 1
    = spline_toe_display powq sqrtq p := rfl
  have hy2 : (dt_iop_filmic_rgb_compute_spline powq sqrtq p).y 2
    = spline_grey_display powq p := rfl
  have hy3 : (dt_iop_filmic_rgb_compute_spline powq sqrtq p).y 3
    = spline_shoulder_display powq sqrtq p := rfl
  have hmin : (dt_iop_filmic_rgb_compute_spline powq sqrtq p).latitude_min
    = spline_toe_log sqrtq p := rfl
  have hmax : (dt_iop_filmic_rgb_compute_spline powq sqrtq p).latitude_max
    = spline_shoulder_log sqrtq p := rfl
  have hM1 : (dt_iop_filmic_rgb_compute_spline powq sqrtq p).M1 2
    = spline_toe_display powq sqrtq p - spline_contrast p * spline_toe_log sqrtq p := rfl
  have hM2 : (dt_iop_filmic_rgb_compute_spline powq sqrtq p).M2 2 = spline_contrast p := rfl
  have hM3 : (dt_iop_filmic_rgb_compute_spline powq sqrtq p).M3 2 = 0 := rfl
  have hM4 : (dt_iop_filmic_rgb_compute_spline powq sqrtq p).M4 2 = 0 := rfl
  have hM5 : (dt_iop_filmic_rgb_compute_spline powq sqrtq p).M5 2 = 0 := rfl
  refine ⟨⟨hM2, hM3, hM4, hM5⟩, ?_, ?_, ?_⟩
  · rw [filmic_spline, hx1, hy1, hmin, hmax, hM1, hM2, hM3, hM4, hM5,
      if_neg (lt_irrefl _), if_neg (not_lt.2 (h1.trans h2))]
    ring
  · rw [filmic_spline, hx2, hy2, hmin, hmax, hM1, hM2, hM3, hM4, hM5,
      if_neg (not_lt.2 h1), if_neg (not_lt.2 h2)]
    simp only [spline_toe_display, spline_toe_log, spline_linear_intercept]
    ring
  · rw [filmic_spline, hx3, hy3, hmin, hmax, hM1, hM2, hM3, hM4, hM5,
      if_neg (not_lt.2 (h1.trans h2)), if_neg (lt_irrefl _)]
    simp only [spline_toe_display, spline_toe_log, spline_shoulder_display,
      spline_shoulder_log, spline_linear_intercept]
    ring

/-- C1 (counterexample): at the in-range parameter set `cexParams` the
balance shift pushes the toe abscissa (0.8) past the grey abscissa (1/11),
so `filmic_spline` at the grey abscissa evaluates the toe polynomial and
misses the grey ordinate 0.1845 by about 0.156, far beyond the claimed
1e-5 tolerance. `powf` is applied only with exponent `1/output_power = 1`
(hence the identity in its first argument) and `sqrtf` only at
`0.75² + 1 = 1.5625`, whose square root 1.25 is exact. -/
theorem spline_node_fidelity_counterexample :
    1e-5 < |filmic_spline (dt_iop_filmic_rgb_compute_spline (fun x _ => x) (fun _ => 5/4) cexParams)
        ((dt_iop_filmic_rgb_compute_spline (fun x _ => x) (fun _ => 5/4) cexParams).x 2)
      - (dt_iop_filmic_rgb_compute_spline (fun x _ => x) (fun _ => 5/4) cexParams).y 2| := by
  norm_num +decide [cexParams, dt_iop_filmic_rgb_compute_spline, filmic_spline, vec3, vec5,
    spline_toeM, spline_toe_coeffs, spline_shoulderM, spline_shoulder_coeffs,
    spline_toe_display, spline_shoulder_display, spline_toe_log, spline_shoulder_log,
    spline_grey_display, spline_black_display, spline_white_display,
    spline_linear_intercept, spline_latitude, spline_balance, spline_contrast,
    spline_coeff, spline_slope_norm, grey_log, dynamic_range, CLAMP,
    gauss_solve, gaussElim, selectPivot, elimRow, solveRowRhs, backSubst,
    List.zipWith, List.foldr, List.getD, List.get?, abs]

/-- Witness for C1 at the near-default parameter set `fidelityParams`, where
the latitude interval straddles the grey abscissa. -/
theorem spline_node_fidelity_witness :
    ((dt_iop_filmic_rgb_compute_spline (fun x _ => x) (fun _ => 2) fidelityParams).M2 2
        = spline_contrast fidelityParams ∧
     (dt_iop_filmic_rgb_compute_spline (fun x _ => x) (fun _ => 2) fidelityParams).M3 2 = 0 ∧
     (dt_iop_filmic_rgb_compute_spline (fun x _ => x) (fun _ => 2) fidelityParams).M4 2 = 0 ∧
     (dt_iop_filmic_rgb_compute_spline (fun x _ => x) (fun _ => 2) fidelityParams).M5 2 = 0) ∧
    filmic_spline (dt_iop_filmic_rgb_compute_spline (fun x _ => x) (fun _ => 2) fidelityParams)
        ((dt_iop_filmic_rgb_compute_spline (fun x _ => x) (fun _ => 2) fidelityParams).x 1)
      = (dt_iop_filmic_rgb_compute_spline (fun x _ => x) (fun _ => 2) fidelityParams).y 1 ∧
    filmic_spline (dt_iop_filmic_rgb_compute_spline (fun x _ => x) (fun _ => 2) fidelityParams)
        ((dt_iop_filmic_rgb_compute_spline (fun x _ => x) (fun _ => 2) fidelityParams).x 2)
      = (dt_iop_filmic_rgb_compute_spline (fun x _ => x) (fun _ => 2) fidelityParams).y 2 ∧
    filmic_spline (dt_iop_filmic_rgb_compute_spline (fun x _ => x) (fun _ => 2) fidelityParams)
        ((dt_iop_filmic_rgb_compute_spline (fun x _ => x) (fun _ => 2) fidelityParams).x 3)
      = (dt_iop_filmic_rgb_compute_spline (fun x _ => x) (fun _ => 2) fidelityParams).y 3 :=
  spline_node_fidelity (fun x _ => x) (fun _ => 2) fidelityParams
    (by norm_num [spline_toe_log, grey_log, spline_latitude, spline_balance,
      spline_coeff, spline_slope_norm, spline_contrast, dynamic_range, CLAMP, fidelityParams])
    (by norm_num [spline_shoulder_log, grey_log, spline_latitude, spline_balance,
      spline_coeff, spline_slope_norm, spline_contrast, dynamic_range, CLAMP, fidelityParams])

/-- C7: the commit step's contrast invariant — whenever the user contrast is
below `grey_display / grey_log`, `commit_params` replaces it by
`1.0001 * grey_display / grey_log`, and consequently the committed contrast
is always at least `grey_display / grey_log` (given a nonnegative dynamic
range and a `powf` that is nonnegative on nonnegative bases). -/
theorem commit_contrast_invariant (powq : ℚ → ℚ → ℚ) (p : Params)
    (hpow : ∀ x y, 0 ≤ x → 0 ≤ powq x y)
    (hgt : 0 ≤ p.grey_point_target)
    (hdr : 0 ≤ dynamic_range p) :
    (p.contrast < commit_grey_display powq p / grey_log p →
      commit_contrast powq p = 1.0001 * commit_grey_display powq p / grey_log p) ∧
    commit_grey_display powq p / grey_log p ≤ commit_contrast powq p := by
  have hgd : 0 ≤ commit_grey_display powq p := by
    rw [commit_grey_display]
    split
    · exact hpow _ _ (by positivity)
    · exact hpow _ _ (by norm_num)
  have hgl : 0 ≤ grey_log p := div_nonneg (abs_nonneg _) hdr
  have hr : 0 ≤ commit_grey_display powq p / grey_log p := div_nonneg hgd hgl
  rw [commit_contrast]
  split
  · refine ⟨fun _ => rfl, ?_⟩
    rw [mul_div_assoc]
    linarith
  · rename_i h
    exact ⟨fun hc => absurd hc h, le_of_not_lt h⟩

/-- Witness for C7 at the concrete parameter set `fidelityParams` with the
identity in place of `powf`. -/
theorem commit_contrast_invariant_witness :
    (fidelityParams.contrast
        < commit_grey_display (fun x _ => x) fidelityParams / grey_log fidelityParams →
      commit_contrast (fun x _ => x) fidelityParams
        = 1.0001 * commit_grey_display (fun x _ => x) fidelityParams / grey_log fidelityParams) ∧
    commit_grey_display (fun x _ => x) fidelityParams / grey_log fidelityParams
      ≤ commit_contrast (fun x _ => x) fidelityParams :=
  commit_contrast_invariant (fun x _ => x) fidelityParams (fun _ _ hx => hx)
    (by norm_num [fidelityParams]) (by norm_num [dynamic_range, fidelityParams])

/-- C9: the tone-mapping dispatch, whichever of the four per-pixel kernels it
selects, never writes the fourth (alpha) element of any pixel of the output
buffer: at every index `k` with `k % 4 = 3` the output buffer keeps its
previous value, for every input buffer (in particular for any buffer the
wavelet/blur reconstruction stages produced). -/
theorem tonemap_alpha_passthrough (log2q expq sqrtq : ℚ → ℚ) (powq : ℚ → ℚ → ℚ)
    (lumq : ℚ → ℚ → ℚ → ℚ) (version : ColorScience) (variant : NormMethod)
    (d : FilmicData) (s : Spline) (inp out : Buf) (k : ℕ) (hk : k % 4 = 3) :
    process_tonemap log2q expq sqrtq powq lumq version variant d s inp out k = out k := by
  cases variant <;> cases version <;>
    simp [process_tonemap, filmic_split_v1, filmic_split_v2, filmic_chroma_v1,
      filmic_chroma_v2, hk]

/-- Witness for C9 at the alpha element of pixel 0 (`k = 3`) of a concrete
configuration. -/
theorem tonemap_alpha_passthrough_witness :
    process_tonemap (fun a => a) (fun a => a) (fun a => a) (fun a _ => a) (fun a _ _ => a)
      ColorScience.v1 NormMethod.nonePreserved ⟨1, 1, 1, 1, 1, 1, 1⟩
      ⟨vec3 0 0 0, vec3 0 0 0, vec3 0 0 0, vec3 0 0 0, vec3 0 0 0,
       vec5 0 0 0 0 0, vec5 0 0 0 0 0, 0, 0⟩
      (fun _ => 0) (fun _ => 9) 3 = 9 :=
  tonemap_alpha_passthrough (fun a => a) (fun a => a) (fun a => a) (fun a _ => a)
    (fun a _ _ => a) ColorScience.v1 NormMethod.nonePreserved ⟨1, 1, 1, 1, 1, 1, 1⟩
    ⟨vec3 0 0 0, vec3 0 0 0, vec3 0 0 0, vec3 0 0 0, vec3 0 0 0,
     vec5 0 0 0 0 0, vec5 0 0 0 0 0, 0, 0⟩
    (fun _ => 0) (fun _ => 9) 3 rfl

/-- Helper: `clamp_simd` always lands in `[0, 1]`. -/
lemma clamp_simd_bounds (x : ℚ) : 0 ≤ clamp_simd x ∧ clamp_simd x ≤ 1 :=
  ⟨le_min (le_max_right _ _) zero_le_one, min_le_right _ _⟩

/-- C10: for every input pixel and parameter set, the color channels produced
by `filmic_split_v1_pixel`, `filmic_split_v2_pixel` and
`filmic_chroma_v2_pixel` always lie in `[0, 1]`, given that `powf` maps
`[0, 1]` bases with positive exponent into `[0, 1]` and the output power is
positive: the spline result is clamped to `[0, 1]` before the output power,
and the v2 gamut branch clamps whenever the max channel exceeds 1. -/
theorem kernel_output_range (log2q expq sqrtq : ℚ → ℚ) (powq : ℚ → ℚ → ℚ)
    (lumq : ℚ → ℚ → ℚ → ℚ) (variant : NormMethod) (d : FilmicData) (s : Spline)
    (pin : Pixel)
    (hpow : ∀ y q, 0 ≤ y → y ≤ 1 → 0 < q → 0 ≤ powq y q ∧ powq y q ≤ 1)
    (hop : 0 < d.output_power) :
    inUnit (filmic_split_v1_pixel log2q expq powq lumq d s pin) ∧
    inUnit (filmic_split_v2_pixel log2q expq sqrtq powq lumq d s pin) ∧
    inUnit (filmic_chroma_v2_pixel log2q expq sqrtq powq lumq variant d s pin) := by
  have hp : ∀ x : ℚ, 0 ≤ powq (clamp_simd x) d.output_power ∧
      powq (clamp_simd x) d.output_power ≤ 1 :=
    fun x => hpow _ _ (clamp_simd_bounds x).1 (clamp_simd_bounds x).2 hop
  refine ⟨?_, ?_, ?_⟩
  · dsimp only [inUnit, filmic_split_v1_pixel]
    exact ⟨(hp _).1, (hp _).2, (hp _).1, (hp _).2, (hp _).1, (hp _).2⟩
  · dsimp only [inUnit, filmic_split_v2_pixel]
    exact ⟨(hp _).1, (hp _).2, (hp _).1, (hp _).2, (hp _).1, (hp _).2⟩
  · have hr2 : 0 ≤ (chroma_v2_r2 log2q expq sqrtq lumq variant d pin).r ∧
        0 ≤ (chroma_v2_r2 log2q expq sqrtq lumq variant d pin).g ∧
        0 ≤ (chroma_v2_r2 log2q expq sqrtq lumq variant d pin).b := by
      dsimp only [chroma_v2_r2]
      exact ⟨le_max_right _ _, le_max_right _ _, le_max_right _ _⟩
    have hn : 0 ≤ chroma_v2_normC log2q powq lumq variant d s pin := by
      rw [chroma_v2_normC]
      exact (hp _).1
    dsimp only [inUnit, filmic_chroma_v2_pixel]
    split
    · exact ⟨(clamp_simd_bounds _).1, (clamp_simd_bounds _).2,
        (clamp_simd_bounds _).1, (clamp_simd_bounds _).2,
        (clamp_simd_bounds _).1, (clamp_simd_bounds _).2⟩
    · rename_i h
      refine ⟨?_, ((le_max_left _ _).trans (le_max_left _ _)).trans (not_lt.1 h),
        ?_, ((le_max_right _ _).trans (le_max_left _ _)).trans (not_lt.1 h),
        ?_, (le_max_right _ _).trans (not_lt.1 h)⟩
      · dsimp only [chroma_v2_pout]
        exact mul_nonneg hr2.1 hn
      · dsimp only [chroma_v2_pout]
        exact mul_nonneg hr2.2.1 hn
      · dsimp only [chroma_v2_pout]
        exact mul_nonneg hr2.2.2 hn

/-- Witness for C10 at a concrete configuration: constant-zero transcendental
stand-ins (`powq` the identity in its base, within the hypothesis's domain),
power-norm variant, output power 1, pixel (2, 1/2, 0). -/
theorem kernel_output_range_witness :
    inUnit (filmic_split_v1_pixel (fun _ => 0) (fun _ => 0) (fun y _ => y)
      (fun a _ _ => a) ⟨1, 1, 1, 1, 1, 1, 1⟩
      ⟨vec3 0 0 0, vec3 0 0 0, vec3 0 0 0, vec3 0 0 0, vec3 0 0 0,
       vec5 0 0 0 0 0, vec5 0 0 0 0 0, 0, 0⟩ ⟨2, 1/2, 0⟩) ∧
    inUnit (filmic_split_v2_pixel (fun _ => 0) (fun _ => 0) (fun _ => 0) (fun y _ => y)
      (fun a _ _ => a) ⟨1, 1, 1, 1, 1, 1, 1⟩
      ⟨vec3 0 0 0, vec3 0 0 0, vec3 0 0 0, vec3 0 0 0, vec3 0 0 0,
       vec5 0 0 0 0 0, vec5 0 0 0 0 0, 0, 0⟩ ⟨2, 1/2, 0⟩) ∧
    inUnit (filmic_chroma_v2_pixel (fun _ => 0) (fun _ => 0) (fun _ => 0) (fun y _ => y)
      (fun a _ _ => a) NormMethod.powerNorm ⟨1, 1, 1, 1, 1, 1, 1⟩
      ⟨vec3 0 0 0, vec3 0 0 0, vec3 0 0 0, vec3 0 0 0, vec3 0 0 0,
       vec5 0 0 0 0 0, vec5 0 0 0 0 0, 0, 0⟩ ⟨2, 1/2, 0⟩) :=
  kernel_output_range (fun _ => 0) (fun _ => 0) (fun _ => 0) (fun y _ => y)
    (fun a _ _ => a) NormMethod.powerNorm ⟨1, 1, 1, 1, 1, 1, 1⟩
    ⟨vec3 0 0 0, vec3 0 0 0, vec3 0 0 0, vec3 0 0 0, vec3 0 0 0,
     vec5 0 0 0 0 0, vec5 0 0 0 0 0, 0, 0⟩ ⟨2, 1/2, 0⟩
    (fun _ _ hy hy1 _ => ⟨hy, hy1⟩) (by norm_num)

/-- C8: if any of the five scratch-buffer allocations of
`reconstruct_highlights` fails, the function reports failure without touching
the accumulator, `process` falls back to the original unreconstructed buffer
as the tone-mapper input, and the render is not aborted: `process` still
produces an output (it returns `none` only on a wrong channel count). -/
theorem reconstruct_alloc_failure_fallback (a : ReconAllocs)
    (inp maskBuf reconstructed out : Buf) (variant : ℕ)
    (gamma gamma_comp beta beta_comp delta : ℚ) (scales : ℕ) (data : List ScaleData)
    (recover_highlights : Bool) (mask_alloc reconstructed_alloc : Option Buf)
    (log2q expq sqrtq : ℚ → ℚ) (powq : ℚ → ℚ → ℚ) (lumq : ℚ → ℚ → ℚ → ℚ)
    (version : ColorScience) (nm : NormMethod) (d : FilmicData) (s : Spline)
    (hfail : a.LF_even = none ∨ a.LF_odd = none ∨ a.HF_RGB = none ∨
      a.HF_grey = none ∨ a.temp = none) :
    (reconstruct_highlights a inp maskBuf reconstructed variant
      gamma gamma_comp beta beta_comp delta scales data).1 = false ∧
    (reconstruct_highlights a inp maskBuf reconstructed variant
      gamma gamma_comp beta beta_comp delta scales data).2 = reconstructed ∧
    process_tone_input recover_highlights mask_alloc reconstructed_alloc a inp maskBuf
      gamma gamma_comp beta beta_comp delta scales data = inp ∧
    process 4 log2q expq sqrtq powq lumq version nm d s recover_highlights
      mask_alloc reconstructed_alloc a inp out maskBuf
      gamma gamma_comp beta beta_comp delta scales data
      = some (process_tonemap log2q expq sqrtq powq lumq version nm d s inp out) := by
  have hna : ¬ (a.LF_even.isSome ∧ a.LF_odd.isSome ∧ a.HF_RGB.isSome ∧
      a.HF_grey.isSome ∧ a.temp.isSome) := by
    rcases hfail with h | h | h | h | h <;> simp [h]
  refine ⟨?_, ?_, ?_, ?_⟩
  · rw [reconstruct_highlights, if_neg hna]
  · rw [reconstruct_highlights, if_neg hna]
  · rw [process_tone_input]
    split
    · rw [reconstruct_highlights, if_neg hna]
      rfl
    · rfl
  · rw [process, if_neg (by norm_num), process_tone_input]
    split
    · rw [reconstruct_highlights, if_neg hna]
      rfl
    · rfl

/-- Witness for C8: a concrete configuration whose `temp` scratch allocation
failed. -/
theorem reconstruct_alloc_failure_fallback_witness :
    (reconstruct_highlights ⟨some (fun _ => 0), some (fun _ => 0), some (fun _ => 0),
        some (fun _ => 0), none⟩ (fun _ => 1) (fun _ => 0) (fun _ => 2) 0
      1 0 1 0 1 1 []).1 = false ∧
    (reconstruct_highlights ⟨some (fun _ => 0), some (fun _ => 0), some (fun _ => 0),
        some (fun _ => 0), none⟩ (fun _ => 1) (fun _ => 0) (fun _ => 2) 0
      1 0 1 0 1 1 []).2 = (fun _ => 2) ∧
    process_tone_input true (some (fun _ => 0)) (some (fun _ => 0))
      ⟨some (fun _ => 0), some (fun _ => 0), some (fun _ => 0), some (fun _ => 0), none⟩
      (fun _ => 1) (fun _ => 0) 1 0 1 0 1 1 [] = (fun _ => 1) ∧
    process 4 (fun a => a) (fun a => a) (fun a => a) (fun a _ => a) (fun a _ _ => a)
      ColorScience.v1 NormMethod.nonePreserved ⟨1, 1, 1, 1, 1, 1, 1⟩
      ⟨vec3 0 0 0, vec3 0 0 0, vec3 0 0 0, vec3 0 0 0, vec3 0 0 0,
       vec5 0 0 0 0 0, vec5 0 0 0 0 0, 0, 0⟩
      true (some (fun _ => 0)) (some (fun _ => 0))
      ⟨some (fun _ => 0), some (fun _ => 0), some (fun _ => 0), some (fun _ => 0), none⟩
      (fun _ => 1) (fun _ => 9) (fun _ => 0) 1 0 1 0 1 1 []
      = some (process_tonemap (fun a => a) (fun a => a) (fun a => a) (fun a _ => a)
          (fun a _ _ => a) ColorScience.v1 NormMethod.nonePreserved ⟨1, 1, 1, 1, 1, 1, 1⟩
          ⟨vec3 0 0 0, vec3 0 0 0, vec3 0 0 0, vec3 0 0 0, vec3 0 0 0,
           vec5 0 0 0 0 0, vec5 0 0 0 0 0, 0, 0⟩
          (fun _ => 1) (fun _ => 9)) :=
  reconstruct_alloc_failure_fallback
    ⟨some (fun _ => 0), some (fun _ => 0), some (fun _ => 0), some (fun _ => 0), none⟩
    (fun _ => 1) (fun _ => 0) (fun _ => 2) (fun _ => 9) 0 1 0 1 0 1 1 []
    true (some (fun _ => 0)) (some (fun _ => 0))
    (fun a => a) (fun a => a) (fun a => a) (fun a _ => a) (fun a _ _ => a)
    ColorScience.v1 NormMethod.nonePreserved ⟨1, 1, 1, 1, 1, 1, 1⟩
    ⟨vec3 0 0 0, vec3 0 0 0, vec3 0 0 0, vec3 0 0 0, vec3 0 0 0,
     vec5 0 0 0 0 0, vec5 0 0 0 0 0, 0, 0⟩
    (Or.inr (Or.inr (Or.inr (Or.inr rfl))))

end FilmicRGB
